import Mathlib

/-!
Verification development for the ImageToToonArt repository
(`backend/cartoon_converter.py`, `backend/ai_converter.py`,
`backend/app.py`, `backend/utils.py`).

Modelling conventions:
* A frame is a width, a height and a pixel function; 8-bit pixels are `ℕ`
  values (with explicit `< 256` range hypotheses where a claim needs them).
* OpenCV primitives whose pixel-level output no claim depends on
  (bilateral filter, median blur, Canny, dilation, morphological close,
  Gaussian blur, CLAHE, the colour-space conversion tables, pencil sketch,
  stylization, edge-preserving filter, the k-means centre search) are
  modelled as components of a parameter record `CV`, constrained only by
  their documented shape behaviour (output has the dimensions of the
  input).  All theorems quantify over the record, so they hold for every
  pixel-level semantics of those primitives.
* Operations whose pixel-level behaviour the claims do depend on are
  modelled concretely from the source / the documented OpenCV contract:
  per-channel bitwise AND/OR/NOT, grey→BGR replication, the
  multiply-clip-truncate channel boosts, binary inverse thresholding,
  the adaptive-threshold comparison, the 3×3 Sobel derivative pair, and
  the assignment of each pixel to its nearest k-means centre.
* Floating-point arithmetic is modelled over `ℚ`; `astype(np.uint8)` of a
  non-negative clipped value is floor truncation.
-/

namespace ImageToToonArt

/-- A three-channel pixel.  `c0`, `c1`, `c2` are the channels in storage
order (B,G,R for BGR frames; H,S,V for HSV frames; L,A,B for LAB frames). -/
structure Pix3 where
  c0 : ℕ
  c1 : ℕ
  c2 : ℕ
deriving DecidableEq

/-- A single-channel frame: grayscale image or edge mask. -/
structure Frame1 where
  width : ℕ
  height : ℕ
  pix : ℕ → ℕ → ℕ

/-- A three-channel frame. -/
structure Frame3 where
  width : ℕ
  height : ℕ
  pix : ℕ → ℕ → Pix3

/-- A frame of either channel count, as returned by the style dispatch
(`pencil_sketch` returns a single-channel frame, everything else three). -/
inductive OutFrame where
  | gray (f : Frame1)
  | color (f : Frame3)

def OutFrame.width : OutFrame → ℕ
  | .gray f => f.width
  | .color f => f.width

def OutFrame.height : OutFrame → ℕ
  | .gray f => f.height
  | .color f => f.height

def OutFrame.channels : OutFrame → ℕ
  | .gray _ => 1
  | .color _ => 3

/-- A constant (solid-colour) frame, the minimal synthetic input of §8. -/
def constFrame (w h : ℕ) (c : Pix3) : Frame3 :=
  ⟨w, h, fun _ _ => c⟩

/-- Apply a per-pixel function to a three-channel frame (the shape of every
`cv2.cvtColor`-style per-pixel conversion). -/
def mapPixels (g : Pix3 → Pix3) (f : Frame3) : Frame3 :=
  ⟨f.width, f.height, fun x y => g (f.pix x y)⟩

/-- Pixel-level `cv2.cvtColor(..., cv2.COLOR_BGR2GRAY)`: the fixed luma
weights 0.299 R + 0.587 G + 0.114 B (channels stored B,G,R), rounded. -/
def bgr2grayPix (p : Pix3) : ℕ :=
  (114 * p.c0 + 587 * p.c1 + 299 * p.c2 + 500) / 1000

/-- `cv2.cvtColor(..., cv2.COLOR_BGR2GRAY)` on a frame. -/
def cvtGray (f : Frame3) : Frame1 :=
  ⟨f.width, f.height, fun x y => bgr2grayPix (f.pix x y)⟩

/-- `cv2.cvtColor(mask, cv2.COLOR_GRAY2BGR)` (also GRAY2RGB): the mask value
is replicated identically into all three channels. -/
def gray2bgr (m : Frame1) : Frame3 :=
  ⟨m.width, m.height, fun x y => ⟨m.pix x y, m.pix x y, m.pix x y⟩⟩

/-- `cv2.cvtColor(..., cv2.COLOR_BGR2RGB)` / RGB2BGR: swap channels 0,2. -/
def swapRB (f : Frame3) : Frame3 :=
  mapPixels (fun p => ⟨p.c2, p.c1, p.c0⟩) f

/-- `cv2.bitwise_and` on three-channel frames: per-pixel, per-channel
bitwise AND. -/
def bitwiseAnd3 (a b : Frame3) : Frame3 :=
  ⟨a.width, a.height, fun x y =>
    ⟨(a.pix x y).c0 &&& (b.pix x y).c0,
     (a.pix x y).c1 &&& (b.pix x y).c1,
     (a.pix x y).c2 &&& (b.pix x y).c2⟩⟩

/-- `cv2.bitwise_and` on single-channel frames. -/
def bitwiseAnd1 (a b : Frame1) : Frame1 :=
  ⟨a.width, a.height, fun x y => a.pix x y &&& b.pix x y⟩

/-- `cv2.bitwise_or` on single-channel frames. -/
def bitwiseOr1 (a b : Frame1) : Frame1 :=
  ⟨a.width, a.height, fun x y => a.pix x y ||| b.pix x y⟩

/-- `cv2.bitwise_not` on a uint8 single-channel frame: `255 - v`. -/
def bitwiseNot1 (a : Frame1) : Frame1 :=
  ⟨a.width, a.height, fun x y => 255 - a.pix x y⟩

/-- The compositing step shared by the generic-chain styles
(`cartoon_converter.py` lines 95-97, 131-135, 174-176, 238-240 and
`ai_converter.py` lines 151-153): convert the edge mask to three channels
and bitwise-AND it with the colour frame. -/
def composeEdges (colorFrame : Frame3) (edges : Frame1) : Frame3 :=
  bitwiseAnd3 colorFrame (gray2bgr edges)

/-- `np.clip(fac * v, 0, 255)` followed by `astype(np.uint8)` on a
non-negative channel value: multiply, clamp to [0,255], truncate. -/
def scaleClip (fac : ℚ) (v : ℕ) : ℕ :=
  (⌊max 0 (min (fac * (v : ℚ)) 255)⌋).toNat

/-- The saturation-boost stage (`cartoon_converter.py` line 92 and its
siblings): on a frame interpreted in HSV storage order, scale channel 1 by
`fac`, clip to [0,255] and truncate back to uint8.  The surrounding
`cv2.cvtColor` BGR↔HSV round-trip is modelled separately via `CV`. -/
def enhanceSaturation (fac : ℚ) (f : Frame3) : Frame3 :=
  mapPixels (fun p => ⟨p.c0, scaleClip fac p.c1, p.c2⟩) f

/-- Boost of two HSV channels (`cartoon_converter.py` lines 169-172,
`ai_converter.py` lines 126-129): scale channel 1 by `facS` and channel 2
by `facV`. -/
def enhanceSatVal (facS facV : ℚ) (f : Frame3) : Frame3 :=
  mapPixels (fun p => ⟨p.c0, scaleClip facS p.c1, scaleClip facV p.c2⟩) f

/-- Boost of the LAB lightness channel (`cartoon_converter.py` line 231):
scale channel 0 by `fac`. -/
def enhanceChan0 (fac : ℚ) (f : Frame3) : Frame3 :=
  mapPixels (fun p => ⟨scaleClip fac p.c0, p.c1, p.c2⟩) f

/-- `cv2.threshold(src, t, 255, cv2.THRESH_BINARY_INV)`: 0 where the source
exceeds the threshold, 255 elsewhere. -/
def threshBinaryInv (t : ℕ) (f : Frame1) : Frame1 :=
  ⟨f.width, f.height, fun x y => if t < f.pix x y then 0 else 255⟩

/-- Saturating cast of a rational to uint8 with round-half-up (models
`cv2.saturate_cast<uchar>` inside `cv2.addWeighted`). -/
def roundSat (q : ℚ) : ℕ :=
  (⌊max 0 (min (q + 1/2) 255)⌋).toNat

/-- `cv2.addWeighted(a, alpha, b, beta, gamma)`: per-channel weighted sum
with saturating cast. -/
def addWeighted (a : Frame3) (alpha : ℚ) (b : Frame3) (beta gamma : ℚ) : Frame3 :=
  ⟨a.width, a.height, fun x y =>
    ⟨roundSat (alpha * ((a.pix x y).c0 : ℚ) + beta * ((b.pix x y).c0 : ℚ) + gamma),
     roundSat (alpha * ((a.pix x y).c1 : ℚ) + beta * ((b.pix x y).c1 : ℚ) + gamma),
     roundSat (alpha * ((a.pix x y).c2 : ℚ) + beta * ((b.pix x y).c2 : ℚ) + gamma)⟩⟩

/-- BORDER_REFLECT_101 index folding used by OpenCV derivative filters. -/
def refl101 (n : ℕ) (i : ℤ) : ℕ :=
  if i < 0 then (-i).toNat
  else if (n : ℤ) ≤ i then (2 * ((n : ℤ) - 1) - i).toNat
  else i.toNat

/-- Sample a grayscale frame at a signed coordinate with reflected border. -/
def sampleR (g : Frame1) (x y : ℤ) : ℤ :=
  (g.pix (refl101 g.width x) (refl101 g.height y) : ℤ)

/-- Modelled from the spec (§4.2 gradient-magnitude detection,
`cv2.Sobel(gray, cv2.CV_64F, 1, 0, ksize=3)`): the horizontal 3×3 Sobel
derivative `[[-1,0,1],[-2,0,2],[-1,0,1]]` at one pixel. -/
def sobelXAt (g : Frame1) (x y : ℕ) : ℤ :=
  let p := fun dx dy => sampleR g ((x : ℤ) + dx) ((y : ℤ) + dy)
  (- p (-1) (-1) + p 1 (-1)) + (- 2 * p (-1) 0 + 2 * p 1 0) + (- p (-1) 1 + p 1 1)

/-- Modelled from the spec (§4.2): the vertical 3×3 Sobel derivative. -/
def sobelYAt (g : Frame1) (x y : ℕ) : ℤ :=
  let p := fun dx dy => sampleR g ((x : ℤ) + dx) ((y : ℤ) + dy)
  (- p (-1) (-1) - 2 * p 0 (-1) - p 1 (-1)) + (p (-1) 1 + 2 * p 0 1 + p 1 1)

/-- Squared Sobel gradient magnitude `sobelx**2 + sobely**2`
(`cartoon_converter.py` line 199 before the square root; the magnitude is
zero exactly where this is zero). -/
def sobelMag2 (g : Frame1) (x y : ℕ) : ℕ :=
  ((sobelXAt g x y) ^ 2 + (sobelYAt g x y) ^ 2).toNat

/-- Maximum of a pixel function over a w×h grid (models `np.max`). -/
def gridMax (w h : ℕ) (f : ℕ → ℕ → ℕ) : ℕ :=
  ((List.range w).map fun x => ((List.range h).map (f x)).foldr max 0).foldr max 0

/-- The pixel list of a frame in row-major order (`image.reshape((-1, 3))`,
`cartoon_converter.py` line 266). -/
def framePixels (f : Frame3) : List Pix3 :=
  (List.range f.height).flatMap fun y => (List.range f.width).map fun x => f.pix x y

/-- Squared euclidean distance between two colours. -/
def sqDist (p q : Pix3) : ℤ :=
  ((p.c0 : ℤ) - q.c0) ^ 2 + ((p.c1 : ℤ) - q.c1) ^ 2 + ((p.c2 : ℤ) - q.c2) ^ 2

/-- Modelled from the spec (§4.3 "assign each pixel to nearest center"):
the deterministic nearest-centre assignment computed by the final k-means
iteration; ties keep the earlier centre.  With no centres the pixel is
returned unchanged. -/
def nearestCenter (centers : List Pix3) (p : Pix3) : Pix3 :=
  match centers with
  | [] => p
  | c :: cs => cs.foldl (fun best c2 => if sqDist p c2 < sqDist p best then c2 else best) c

/-- The external OpenCV primitives the pipelines call, modelled as an
interface record.  Each field is the pixel function of one library
primitive; the repository code never resizes, so each primitive is applied
through a wrapper that keeps the dimensions of the input (the documented
behaviour of every one of these OpenCV functions). -/
structure CV where
  /-- `cv2.bilateralFilter(src, d, sigmaColor, sigmaSpace)`. -/
  bilateralPix : ℕ → ℕ → ℕ → Frame3 → ℕ → ℕ → Pix3
  /-- `cv2.fastNlMeansDenoisingColored(src, None, 10, 10, 7, 21)`. -/
  nlMeansPix : Frame3 → ℕ → ℕ → Pix3
  /-- `cv2.medianBlur(gray, ksize)`. -/
  medianPix : ℕ → Frame1 → ℕ → ℕ → ℕ
  /-- Block mean of `cv2.ADAPTIVE_THRESH_MEAN_C` (blockSize first). -/
  localMeanPix : ℕ → Frame1 → ℕ → ℕ → ℚ
  /-- Gaussian-weighted block mean of `cv2.ADAPTIVE_THRESH_GAUSSIAN_C`. -/
  localGaussPix : ℕ → Frame1 → ℕ → ℕ → ℚ
  /-- `cv2.Canny(gray, t1, t2)`. -/
  cannyPix : ℕ → ℕ → Frame1 → ℕ → ℕ → ℕ
  /-- `cv2.dilate(mask, np.ones((2, 2)), iterations=1)`. -/
  dilatePix : Frame1 → ℕ → ℕ → ℕ
  /-- `cv2.morphologyEx(mask, cv2.MORPH_CLOSE, kernel)`. -/
  morphClosePix : Frame1 → ℕ → ℕ → ℕ
  /-- The scaled Sobel magnitude `np.uint8(255 * sobel / np.max(sobel))`
  in the non-degenerate case (the square root lives here; the
  division-by-zero guard is modelled concretely in `sobelEdgeStage`). -/
  sobelNormPix : Frame1 → ℕ → ℕ → ℕ
  /-- `cv2.filter2D(src, -1, kernel)` for a 3×3 integer kernel. -/
  filter2DPix : (ℕ → ℕ → ℤ) → Frame3 → ℕ → ℕ → Pix3
  /-- `cv2.GaussianBlur(src, (0, 0), sigma)`. -/
  gaussianPix : ℚ → Frame3 → ℕ → ℕ → Pix3
  /-- `cv2.GaussianBlur(src, (k, k), 0)`. -/
  gaussianKPix : ℕ → Frame3 → ℕ → ℕ → Pix3
  /-- The CLAHE pass `clahe.apply(lab[:, :, 0])` with clipLimit 2.0,
  tile grid 8×8. -/
  clahePix : Frame1 → ℕ → ℕ → ℕ
  /-- Per-pixel `cv2.cvtColor` BGR→HSV conversion table. -/
  bgr2hsvPix : Pix3 → Pix3
  /-- Per-pixel HSV→BGR conversion table. -/
  hsv2bgrPix : Pix3 → Pix3
  /-- Per-pixel RGB→HSV conversion table. -/
  rgb2hsvPix : Pix3 → Pix3
  /-- Per-pixel HSV→RGB conversion table. -/
  hsv2rgbPix : Pix3 → Pix3
  /-- Per-pixel BGR→LAB conversion table. -/
  bgr2labPix : Pix3 → Pix3
  /-- Per-pixel LAB→BGR conversion table. -/
  lab2bgrPix : Pix3 → Pix3
  /-- The centres returned by `cv2.kmeans(pixels, k, None, criteria, 10,
  cv2.KMEANS_RANDOM_CENTERS)`; arbitrary here, which models the random
  initialisation and the iteration/epsilon criteria. -/
  kmeansCenters : ℕ → List Pix3 → List Pix3
  /-- Grayscale output of `cv2.pencilSketch(img, sigma_s, sigma_r,
  shade_factor)`. -/
  pencilGrayPix : ℕ → ℚ → ℚ → Frame3 → ℕ → ℕ → ℕ
  /-- Colour output of `cv2.pencilSketch`. -/
  pencilColorPix : ℕ → ℚ → ℚ → Frame3 → ℕ → ℕ → Pix3
  /-- `cv2.stylization(img, sigma_s, sigma_r)`. -/
  stylizationPix : ℕ → ℚ → Frame3 → ℕ → ℕ → Pix3
  /-- `cv2.edgePreservingFilter(img, flags, sigma_s, sigma_r)`. -/
  edgePreservingPix : ℕ → ℕ → ℚ → Frame3 → ℕ → ℕ → Pix3

/-- `cv2.bilateralFilter`, dimension-preserving wrapper. -/
def bilateralFilter (cv : CV) (d sc ss : ℕ) (f : Frame3) : Frame3 :=
  ⟨f.width, f.height, cv.bilateralPix d sc ss f⟩

/-- `cv2.fastNlMeansDenoisingColored`. -/
def nlMeansDenoise (cv : CV) (f : Frame3) : Frame3 :=
  ⟨f.width, f.height, cv.nlMeansPix f⟩

/-- `cv2.medianBlur`. -/
def medianBlur (cv : CV) (ksize : ℕ) (f : Frame1) : Frame1 :=
  ⟨f.width, f.height, cv.medianPix ksize f⟩

/-- `cv2.adaptiveThreshold(src, maxVal, cv2.ADAPTIVE_THRESH_MEAN_C,
cv2.THRESH_BINARY, blockSize, C)`: `maxVal` where the pixel exceeds the
block mean minus `C`, else 0. -/
def adaptiveThresholdMean (cv : CV) (maxVal blockSize : ℕ) (C : ℚ) (f : Frame1) : Frame1 :=
  ⟨f.width, f.height, fun x y =>
    if cv.localMeanPix blockSize f x y - C < (f.pix x y : ℚ) then maxVal else 0⟩

/-- `cv2.adaptiveThreshold` with `cv2.ADAPTIVE_THRESH_GAUSSIAN_C`. -/
def adaptiveThresholdGauss (cv : CV) (maxVal blockSize : ℕ) (C : ℚ) (f : Frame1) : Frame1 :=
  ⟨f.width, f.height, fun x y =>
    if cv.localGaussPix blockSize f x y - C < (f.pix x y : ℚ) then maxVal else 0⟩

/-- `cv2.Canny`. -/
def canny (cv : CV) (t1 t2 : ℕ) (f : Frame1) : Frame1 :=
  ⟨f.width, f.height, cv.cannyPix t1 t2 f⟩

/-- `cv2.dilate` with a 2×2 ones kernel. -/
def dilate (cv : CV) (f : Frame1) : Frame1 :=
  ⟨f.width, f.height, cv.dilatePix f⟩

/-- `cv2.morphologyEx(…, cv2.MORPH_CLOSE, …)`. -/
def morphClose (cv : CV) (f : Frame1) : Frame1 :=
  ⟨f.width, f.height, cv.morphClosePix f⟩

/-- `cv2.filter2D(src, -1, kernel)`. -/
def filter2D (cv : CV) (kernel : ℕ → ℕ → ℤ) (f : Frame3) : Frame3 :=
  ⟨f.width, f.height, cv.filter2DPix kernel f⟩

/-- `cv2.GaussianBlur(src, (0, 0), sigma)`. -/
def gaussianBlur (cv : CV) (sigma : ℚ) (f : Frame3) : Frame3 :=
  ⟨f.width, f.height, cv.gaussianPix sigma f⟩

/-- `cv2.GaussianBlur(src, (k, k), 0)`. -/
def gaussianBlurK (cv : CV) (k : ℕ) (f : Frame3) : Frame3 :=
  ⟨f.width, f.height, cv.gaussianKPix k f⟩

/-- The sharpening kernel of `cartoon_converter.py` lines 100-102. -/
def sharpenKernel (i j : ℕ) : ℤ :=
  match i, j with
  | 0, 0 => 0 | 0, 1 => -1 | 0, 2 => 0
  | 1, 0 => -1 | 1, 1 => 5 | 1, 2 => -1
  | 2, 0 => 0 | 2, 1 => -1 | 2, 2 => 0
  | _, _ => 0

/-- The sharpening kernel of `ai_converter.py` lines 94-96. -/
def ganSharpenKernel (i j : ℕ) : ℤ :=
  match i, j with
  | 1, 1 => 9
  | i2, j2 => if i2 ≤ 2 ∧ j2 ≤ 2 then -1 else 0

/-- Boost the HSV saturation of a BGR frame (`cartoon_converter.py`
lines 91-93): convert to HSV, scale channel 1, convert back. -/
def boostSaturationBGR (cv : CV) (fac : ℚ) (f : Frame3) : Frame3 :=
  mapPixels cv.hsv2bgrPix (enhanceSaturation fac (mapPixels cv.bgr2hsvPix f))

/-- Boost HSV saturation and value of a BGR frame (`cartoon_converter.py`
lines 169-172). -/
def boostSatValBGR (cv : CV) (facS facV : ℚ) (f : Frame3) : Frame3 :=
  mapPixels cv.hsv2bgrPix (enhanceSatVal facS facV (mapPixels cv.bgr2hsvPix f))

/-- Boost the HSV saturation of an RGB frame (`ai_converter.py`
lines 76-78). -/
def boostSaturationRGB (cv : CV) (fac : ℚ) (f : Frame3) : Frame3 :=
  mapPixels cv.hsv2rgbPix (enhanceSaturation fac (mapPixels cv.rgb2hsvPix f))

/-- Boost HSV saturation and value of an RGB frame (`ai_converter.py`
lines 126-130). -/
def boostSatValRGB (cv : CV) (facS facV : ℚ) (f : Frame3) : Frame3 :=
  mapPixels cv.hsv2rgbPix (enhanceSatVal facS facV (mapPixels cv.rgb2hsvPix f))

/-- Boost the LAB lightness of a BGR frame (`cartoon_converter.py`
lines 230-232). -/
def boostLightnessLAB (cv : CV) (fac : ℚ) (f : Frame3) : Frame3 :=
  mapPixels cv.lab2bgrPix (enhanceChan0 fac (mapPixels cv.bgr2labPix f))

/-- The CLAHE contrast pass (`cartoon_converter.py` lines 247-250):
convert to LAB, replace the lightness channel by its CLAHE image,
convert back. -/
def claheLightness (cv : CV) (f : Frame3) : Frame3 :=
  let lab := mapPixels cv.bgr2labPix f
  let chan0 : Frame1 := ⟨lab.width, lab.height, fun x y => (lab.pix x y).c0⟩
  mapPixels cv.lab2bgrPix
    ⟨lab.width, lab.height, fun x y =>
      ⟨cv.clahePix chan0 x y, (lab.pix x y).c1, (lab.pix x y).c2⟩⟩

/-- `CartoonConverter._quantize_colors` (`cartoon_converter.py`
lines 254-289): run k-means on the pixel list and replace each pixel by
the centre it is assigned to. -/
def quantize_colors (cv : CV) (image : Frame3) (k : ℕ) : Frame3 :=
  let centers := cv.kmeansCenters k (framePixels image)
  ⟨image.width, image.height, fun x y => nearestCenter centers (image.pix x y)⟩

/-- The Sobel branch of the edge stage of the ultra style
(`cartoon_converter.py` lines 196-201).  The scaling
`255 * sobel / np.max(sobel)` divides by the maximal gradient magnitude;
when that maximum is zero the division is 0/0, which is modelled as
`none`.  The non-degenerate branch applies the threshold
`cv2.threshold(sobel, 50, 255, cv2.THRESH_BINARY_INV)`. -/
def sobelEdgeStage (cv : CV) (gray : Frame1) : Option Frame1 :=
  if gridMax gray.width gray.height (sobelMag2 gray) = 0 then none
  else some (threshBinaryInv 50 ⟨gray.width, gray.height, cv.sobelNormPix gray⟩)

/-- `CartoonConverter._classic_cartoon` (`cartoon_converter.py`
lines 47-105), with the default parameters of lines 15-23. -/
def classic_cartoon (cv : CV) (image : Frame3) : Frame3 :=
  let smooth := bilateralFilter cv 9 300 300 image
  let smooth := bilateralFilter cv 9 300 300 smooth
  let gray := cvtGray image
  let gray := medianBlur cv 7 gray
  let edges := adaptiveThresholdMean cv 255 9 2 gray
  let quantized := quantize_colors cv smooth 12
  let quantized := boostSaturationBGR cv (6/5) quantized
  let cartoon := composeEdges quantized edges
  filter2D cv sharpenKernel cartoon

/-- `CartoonConverter._smooth_cartoon` (`cartoon_converter.py`
lines 107-135). -/
def smooth_cartoon (cv : CV) (image : Frame3) : Frame3 :=
  let smooth := bilateralFilter cv 15 80 80 image
  let smooth := bilateralFilter cv 9 300 300 smooth
  let gray := cvtGray smooth
  let gray := medianBlur cv 7 gray
  let edges := adaptiveThresholdMean cv 255 9 5 gray
  let quantized := quantize_colors cv smooth 6
  composeEdges quantized edges

/-- `CartoonConverter._edge_heavy_cartoon` (`cartoon_converter.py`
lines 137-178). -/
def edge_heavy_cartoon (cv : CV) (image : Frame3) : Frame3 :=
  let smooth := bilateralFilter cv 9 250 250 image
  let gray := cvtGray image
  let edges_canny := canny cv 50 150 gray
  let gray_blur := medianBlur cv 5 gray
  let edges_adaptive := adaptiveThresholdMean cv 255 9 2 gray_blur
  let edges := bitwiseOr1 (bitwiseNot1 edges_canny) edges_adaptive
  let edges := morphClose cv edges
  let quantized := quantize_colors cv smooth 14
  let quantized := boostSatValBGR cv (13/10) (11/10) quantized
  composeEdges quantized edges

/-- `CartoonConverter._ultra_quality_cartoon` (`cartoon_converter.py`
lines 180-252).  The Sobel edge stage is undefined (0/0) on frames with
zero gradient everywhere, so the result is an `Option`. -/
def ultra_quality_cartoon (cv : CV) (image : Frame3) : Option Frame3 :=
  let denoised := nlMeansDenoise cv image
  let smooth := bilateralFilter cv 9 75 75
    (bilateralFilter cv 9 75 75 (bilateralFilter cv 9 75 75 denoised))
  let gray := cvtGray image
  match sobelEdgeStage cv gray with
  | none => none
  | some edges_sobel =>
    let gray_blur := medianBlur cv 7 gray
    let edges_adaptive := adaptiveThresholdGauss cv 255 11 2 gray_blur
    let edges_canny := bitwiseNot1 (dilate cv (canny cv 30 100 gray))
    let edges := bitwiseAnd1 (bitwiseAnd1 edges_sobel edges_adaptive) edges_canny
    let edges := morphClose cv edges
    let quantized := quantize_colors cv smooth 16
    let quantized := boostLightnessLAB cv (21/20) quantized
    let quantized := boostSaturationBGR cv (7/5) quantized
    let cartoon := composeEdges quantized edges
    let gaussian := gaussianBlur cv 2 cartoon
    let cartoon := addWeighted cartoon (3/2) gaussian (-(1/2)) 0
    some (claheLightness cv cartoon)

/-- `CartoonConverter.convert` (`cartoon_converter.py` lines 25-45):
dispatch on the style string; any unrecognised style falls through the
final `else` to `_classic_cartoon`. -/
def CartoonConverter.convert (cv : CV) (image : Frame3) (style : String) : Option Frame3 :=
  if style = "classic" then some (classic_cartoon cv image)
  else if style = "smooth" then some (smooth_cartoon cv image)
  else if style = "edge_heavy" then some (edge_heavy_cartoon cv image)
  else if style = "ultra" then ultra_quality_cartoon cv image
  else some (classic_cartoon cv image)

/-- `cv2.pencilSketch(image, sigma_s=60, sigma_r=0.07, shade_factor=0.05)`:
returns the single-channel sketch and the three-channel colour sketch. -/
def pencilSketch (cv : CV) (image : Frame3) : Frame1 × Frame3 :=
  (⟨image.width, image.height, cv.pencilGrayPix 60 (7/100) (1/20) image⟩,
   ⟨image.width, image.height, cv.pencilColorPix 60 (7/100) (1/20) image⟩)

/-- `CartoonConverter.stylize_pencil_sketch` (`cartoon_converter.py`
lines 291-318): the colour output in colour mode, the grayscale output
otherwise. -/
def stylize_pencil_sketch (cv : CV) (image : Frame3) (color : Bool) : OutFrame :=
  if color then .color (pencilSketch cv image).2
  else .gray (pencilSketch cv image).1

/-- `CartoonConverter.stylize_oil_painting` (`cartoon_converter.py`
lines 320-332): `cv2.stylization(image, sigma_s=60, sigma_r=0.6)`. -/
def stylize_oil_painting (cv : CV) (image : Frame3) : Frame3 :=
  ⟨image.width, image.height, cv.stylizationPix 60 (3/5) image⟩

/-- `CartoonConverter.get_available_styles` (`cartoon_converter.py`
lines 334-337). -/
def get_available_styles : List String :=
  ["classic", "smooth", "edge_heavy", "ultra", "pencil_sketch",
   "pencil_sketch_color", "oil_painting"]

/-- `AICartoonConverter.convert_simple_gan_style` (`ai_converter.py`
lines 57-105). -/
def convert_simple_gan_style (cv : CV) (image : Frame3) : Frame3 :=
  let img_rgb := swapRB image
  let bilateral := bilateralFilter cv 9 75 75 img_rgb
  let bilateral := bilateralFilter cv 9 75 75 bilateral
  let enhanced := boostSaturationRGB cv (13/10) bilateral
  let quantized := quantize_colors cv enhanced 12
  let sharpened := filter2D cv ganSharpenKernel quantized
  let result := addWeighted quantized (7/10) sharpened (3/10) 0
  swapRB result

/-- `AICartoonConverter.convert_anime_style` (`ai_converter.py`
lines 107-161). -/
def convert_anime_style (cv : CV) (image : Frame3) : Frame3 :=
  let img_rgb := swapRB image
  let bilateral := bilateralFilter cv 9 60 60
    (bilateralFilter cv 9 60 60 (bilateralFilter cv 9 60 60 img_rgb))
  let enhanced := boostSatValRGB cv (3/2) (11/10) bilateral
  let gray := cvtGray image
  let edges := dilate cv (canny cv 50 150 gray)
  let edges_inv := bitwiseNot1 edges
  let quantized := quantize_colors cv enhanced 16
  let result := composeEdges quantized edges_inv
  let result := bilateralFilter cv 5 50 50 result
  swapRB result

/-- `AICartoonConverter.convert_watercolor_style` (`ai_converter.py`
lines 163-188). -/
def convert_watercolor_style (cv : CV) (image : Frame3) : Frame3 :=
  let smooth : Frame3 := ⟨image.width, image.height, cv.edgePreservingPix 1 60 (3/5) image⟩
  let stylized : Frame3 := ⟨smooth.width, smooth.height, cv.stylizationPix 60 (1/2) smooth⟩
  let result := gaussianBlurK cv 5 stylized
  boostSaturationBGR cv (6/5) result

/-- `AICartoonConverter.apply_neural_style_transfer` (`ai_converter.py`
lines 190-212): anime and watercolor map to their stylizers, everything
else to the simple GAN-style pipeline. -/
def apply_neural_style_transfer (cv : CV) (content_image : Frame3) (style : String) : Frame3 :=
  if style = "anime" then convert_anime_style cv content_image
  else if style = "watercolor" then convert_watercolor_style cv content_image
  else convert_simple_gan_style cv content_image

/-- `AICartoonConverter.get_available_styles` (`ai_converter.py`
lines 214-216). -/
def ai_available_styles : List String :=
  ["cartoon", "anime", "watercolor"]

/-- `utils.allowed_file` (`utils.py` lines 14-29): the filename contains a
dot and its lower-cased extension is in the allow list. -/
def allowed_file (filename : String) : Bool :=
  filename.contains '.' &&
    ((filename.splitOn ".").getLastD "").toLower ∈
      ["png", "jpg", "jpeg", "gif", "bmp", "webp"]

/-- `utils.validate_image` (`utils.py` lines 175-209).  `byteLen` is
`len(image_bytes)`; `decoded` is the result of `PIL.Image.open` — `none`
when the bytes are undecodable — carrying the pixel dimensions.  Returns
the `(is_valid, error_message)` pair of the source (message texts
abbreviated where the source interpolates numbers). -/
def validate_image (byteLen : ℕ) (decoded : Option (ℕ × ℕ)) (max_size_mb : ℕ) :
    Bool × String :=
  if (max_size_mb : ℚ) < (byteLen : ℚ) / (1024 * 1024) then
    (false, "File size exceeds maximum")
  else
    match decoded with
    | none => (false, "Invalid image file")
    | some (width, height) =>
      if width < 50 ∨ height < 50 then
        (false, "Image dimensions too small (minimum 50x50)")
      else if 10000 < width ∨ 10000 < height then
        (false, "Image dimensions too large (maximum 10000x10000)")
      else (true, "")

/-- The style-dispatch core of `app.convert_image` (`app.py`
lines 177-199), from the point after validation, decode and the optional
resize: route the frame to the pipeline selected by the style string, or
fail with the unknown-style error.  The `Option` in the payload is the
degenerate case of the ultra pipeline. -/
def convert_image_style (cv : CV) (style : String) (image : Frame3) :
    Except String (Option OutFrame) :=
  if style ∈ ["classic", "smooth", "edge_heavy", "ultra"] then
    .ok ((CartoonConverter.convert cv image style).map OutFrame.color)
  else if style = "pencil_sketch" then
    .ok (some (stylize_pencil_sketch cv image false))
  else if style = "pencil_sketch_color" then
    .ok (some (stylize_pencil_sketch cv image true))
  else if style = "oil_painting" then
    .ok (some (.color (stylize_oil_painting cv image)))
  else if style ∈ ["cartoon", "anime", "watercolor"] then
    .ok (some (.color (apply_neural_style_transfer cv image style)))
  else
    .error ("Unknown style: " ++ style)

/-- The stylization pipelines of the system, one constructor per concrete
pipeline function. -/
inductive Pipeline where
  | classic
  | smooth
  | edgeHeavy
  | ultra
  | pencilGray
  | pencilColor
  | oil
  | ganStyle
  | animeStyle
  | watercolorStyle
deriving DecidableEq

/-- The dispatch of `CartoonConverter.convert` as a pipeline name
(`cartoon_converter.py` lines 36-45): the final `else` falls back to the
classic pipeline. -/
def converterDispatch (style : String) : Pipeline :=
  if style = "classic" then .classic
  else if style = "smooth" then .smooth
  else if style = "edge_heavy" then .edgeHeavy
  else if style = "ultra" then .ultra
  else .classic

/-- The dispatch of `AICartoonConverter.apply_neural_style_transfer` as a
pipeline name (`ai_converter.py` lines 207-212). -/
def aiDispatch (style : String) : Pipeline :=
  if style = "anime" then .animeStyle
  else if style = "watercolor" then .watercolorStyle
  else .ganStyle

/-- The per-style pipeline run by single-item conversion, `app.convert_image`
(`app.py` lines 177-199). -/
def singleDispatch (style : String) : Except String Pipeline :=
  if style ∈ ["classic", "smooth", "edge_heavy", "ultra"] then
    .ok (converterDispatch style)
  else if style = "pencil_sketch" then .ok .pencilGray
  else if style = "pencil_sketch_color" then .ok .pencilColor
  else if style = "oil_painting" then .ok .oil
  else if style ∈ ["cartoon", "anime", "watercolor"] then .ok (aiDispatch style)
  else .error ("Unknown style: " ++ style)

/-- The per-style pipeline run for each item of a batch,
`app.batch_convert_images` (`app.py` lines 276-279): only the three
classic styles reach `cartoon_converter.convert`; every other style
string goes to the AI converter. -/
def batchDispatch (style : String) : Pipeline :=
  if style ∈ ["classic", "smooth", "edge_heavy"] then converterDispatch style
  else aiDispatch style

/-- One uploaded file of a batch request: its filename, its byte size, and
the frame it decodes to (`none` for corrupt bytes). -/
structure Upload where
  filename : String
  byteLen : ℕ
  image : Option Frame3

/-- One entry of the `results` list of the batch response. -/
inductive ItemResult where
  | success (filename : String)
  | error (filename message : String)
deriving DecidableEq

def ItemResult.isSuccess : ItemResult → Bool
  | .success _ => true
  | .error _ _ => false

/-- The response body of `app.batch_convert_images` (`app.py`
lines 299-304). -/
structure BatchResponse where
  total : ℕ
  successful : ℕ
  failed : ℕ
  results : List ItemResult
deriving DecidableEq

/-- The per-item body of the loop in `app.batch_convert_images` (`app.py`
lines 248-297): extension check, validation, decode, style dispatch; any
failure produces a per-item error entry instead of aborting the batch
(the `try`/`except` of lines 249 and 292-297). -/
def processBatchItem (cv : CV) (style : String) (u : Upload) : ItemResult :=
  if ¬ allowed_file u.filename then .error u.filename "Invalid file type"
  else
    match validate_image u.byteLen (u.image.map fun f => (f.width, f.height)) 10 with
    | (false, msg) => .error u.filename msg
    | (true, _) =>
      match u.image with
      | none => .error u.filename "Invalid image file"
      | some image =>
        let _converted : Option Frame3 :=
          if style ∈ ["classic", "smooth", "edge_heavy"] then
            CartoonConverter.convert cv image style
          else some (apply_neural_style_transfer cv image style)
        .success u.filename

/-- `app.batch_convert_images` (`app.py` lines 224-304): reject batches of
more than 10 files outright, before touching any item; otherwise process
every item independently and report per-item results. -/
def batch_convert_images (cv : CV) (style : String) (files : List Upload) :
    Except String BatchResponse :=
  if 10 < files.length then
    .error "Maximum 10 files allowed in batch processing"
  else
    let results := files.map (processBatchItem cv style)
    .ok ⟨files.length,
         (results.filter (fun r => r.isSuccess)).length,
         (results.filter (fun r => ¬ r.isSuccess)).length,
         results⟩

/-- The set of distinct colours a frame shows on its w×h grid. -/
def colorsOf (f : Frame3) : Finset Pix3 :=
  (Finset.range f.width ×ˢ Finset.range f.height).image fun q => f.pix q.1 q.2

/-- A concrete instantiation of the OpenCV interface, used to evaluate the
pipelines at concrete inputs: every abstract primitive returns a fixed
pixel, and the k-means search returns no centres. -/
def trivCV : CV where
  bilateralPix := fun _ _ _ _ _ _ => ⟨0, 0, 0⟩
  nlMeansPix := fun _ _ _ => ⟨0, 0, 0⟩
  medianPix := fun _ _ _ _ => 0
  localMeanPix := fun _ _ _ _ => 0
  localGaussPix := fun _ _ _ _ => 0
  cannyPix := fun _ _ _ _ _ => 0
  dilatePix := fun _ _ _ => 0
  morphClosePix := fun _ _ _ => 0
  sobelNormPix := fun _ _ _ => 0
  filter2DPix := fun _ _ _ _ => ⟨0, 0, 0⟩
  gaussianPix := fun _ _ _ _ => ⟨0, 0, 0⟩
  gaussianKPix := fun _ _ _ _ => ⟨0, 0, 0⟩
  clahePix := fun _ _ _ => 0
  bgr2hsvPix := fun p => p
  hsv2bgrPix := fun p => p
  rgb2hsvPix := fun p => p
  hsv2rgbPix := fun p => p
  bgr2labPix := fun p => p
  lab2bgrPix := fun p => p
  kmeansCenters := fun _ _ => []
  pencilGrayPix := fun _ _ _ _ _ _ => 0
  pencilColorPix := fun _ _ _ _ _ _ => ⟨0, 0, 0⟩
  stylizationPix := fun _ _ _ _ _ => ⟨0, 0, 0⟩
  edgePreservingPix := fun _ _ _ _ _ _ => ⟨0, 0, 0⟩

/-- A concrete 2×1 colour frame used as a witness input. -/
def probeColor : Frame3 :=
  ⟨2, 1, fun x _ => if x = 0 then ⟨10, 20, 30⟩ else ⟨250, 150, 50⟩⟩

/-- A concrete 2×1 binary edge mask: 0 at column 0, 255 at column 1. -/
def probeMask : Frame1 :=
  ⟨2, 1, fun x _ => if x = 0 then 0 else 255⟩

/-- A concrete 1×1 frame in HSV storage order with saturation 100. -/
def probeHSV : Frame3 :=
  ⟨1, 1, fun _ _ => ⟨0, 100, 0⟩⟩

/-- A decodable 100×100 upload with a legal extension. -/
def goodUpload (name : String) : Upload :=
  ⟨name, 1000, some (constFrame 100 100 ⟨1, 2, 3⟩)⟩

/-- A corrupt upload: a legal extension but undecodable bytes. -/
def corruptUpload : Upload :=
  ⟨"b.jpg", 1000, none⟩

/-- An eleven-item batch, over the cap. -/
def elevenUploads : List Upload :=
  (List.range 11).map fun i => goodUpload (toString i ++ ".png")

/-- A three-item batch whose middle item is corrupt (§8 scenario 5). -/
def threeUploads : List Upload :=
  [goodUpload "a.jpg", corruptUpload, goodUpload "c.png"]

/-! ### Helper lemmas -/

@[simp] theorem mapPixels_width (g : Pix3 → Pix3) (f : Frame3) : (mapPixels g f).width = f.width := rfl

@[simp] theorem mapPixels_height (g : Pix3 → Pix3) (f : Frame3) : (mapPixels g f).height = f.height := rfl

@[simp] theorem cvtGray_width (f : Frame3) : (cvtGray f).width = f.width := rfl

@[simp] theorem cvtGray_height (f : Frame3) : (cvtGray f).height = f.height := rfl

@[simp] theorem gray2bgr_width (m : Frame1) : (gray2bgr m).width = m.width := rfl

@[simp] theorem gray2bgr_height (m : Frame1) : (gray2bgr m).height = m.height := rfl

@[simp] theorem swapRB_width (f : Frame3) : (swapRB f).width = f.width := rfl

@[simp] theorem swapRB_height (f : Frame3) : (swapRB f).height = f.height := rfl

@[simp] theorem bitwiseAnd3_width (a b : Frame3) : (bitwiseAnd3 a b).width = a.width := rfl

@[simp] theorem bitwiseAnd3_height (a b : Frame3) : (bitwiseAnd3 a b).height = a.height := rfl

@[simp] theorem bitwiseAnd1_width (a b : Frame1) : (bitwiseAnd1 a b).width = a.width := rfl

@[simp] theorem bitwiseAnd1_height (a b : Frame1) : (bitwiseAnd1 a b).height = a.height := rfl

@[simp] theorem bitwiseOr1_width (a b : Frame1) : (bitwiseOr1 a b).width = a.width := rfl

@[simp] theorem bitwiseOr1_height (a b : Frame1) : (bitwiseOr1 a b).height = a.height := rfl

@[simp] theorem bitwiseNot1_width (a : Frame1) : (bitwiseNot1 a).width = a.width := rfl

@[simp] theorem bitwiseNot1_height (a : Frame1) : (bitwiseNot1 a).height = a.height := rfl

@[simp] theorem composeEdges_width (c : Frame3) (m : Frame1) : (composeEdges c m).width = c.width := rfl

@[simp] theorem composeEdges_height (c : Frame3) (m : Frame1) : (composeEdges c m).height = c.height := rfl

@[simp] theorem enhanceSaturation_width (fac : ℚ) (f : Frame3) : (enhanceSaturation fac f).width = f.width := rfl

@[simp] theorem enhanceSaturation_height (fac : ℚ) (f : Frame3) : (enhanceSaturation fac f).height = f.height := rfl

@[simp] theorem enhanceSatVal_width (fs fv : ℚ) (f : Frame3) : (enhanceSatVal fs fv f).width = f.width := rfl

@[simp] theorem enhanceSatVal_height (fs fv : ℚ) (f : Frame3) : (enhanceSatVal fs fv f).height = f.height := rfl

@[simp] theorem enhanceChan0_width (fac : ℚ) (f : Frame3) : (enhanceChan0 fac f).width = f.width := rfl

@[simp] theorem enhanceChan0_height (fac : ℚ) (f : Frame3) : (enhanceChan0 fac f).height = f.height := rfl

@[simp] theorem threshBinaryInv_width (t : ℕ) (f : Frame1) : (threshBinaryInv t f).width = f.width := rfl

@[simp] theorem threshBinaryInv_height (t : ℕ) (f : Frame1) : (threshBinaryInv t f).height = f.height := rfl

@[simp] theorem addWeighted_width (a : Frame3) (al : ℚ) (b : Frame3) (be ga : ℚ) : (addWeighted a al b be ga).width = a.width := rfl

@[simp] theorem addWeighted_height (a : Frame3) (al : ℚ) (b : Frame3) (be ga : ℚ) : (addWeighted a al b be ga).height = a.height := rfl

@[simp] theorem bilateralFilter_width (cv : CV) (d sc ss : ℕ) (f : Frame3) : (bilateralFilter cv d sc ss f).width = f.width := rfl

@[simp] theorem bilateralFilter_height (cv : CV) (d sc ss : ℕ) (f : Frame3) : (bilateralFilter cv d sc ss f).height = f.height := rfl

@[simp] theorem nlMeansDenoise_width (cv : CV) (f : Frame3) : (nlMeansDenoise cv f).width = f.width := rfl

@[simp] theorem nlMeansDenoise_height (cv : CV) (f : Frame3) : (nlMeansDenoise cv f).height = f.height := rfl

@[simp] theorem medianBlur_width (cv : CV) (k : ℕ) (f : Frame1) : (medianBlur cv k f).width = f.width := rfl

@[simp] theorem medianBlur_height (cv : CV) (k : ℕ) (f : Frame1) : (medianBlur cv k f).height = f.height := rfl

@[simp] theorem adaptiveThresholdMean_width (cv : CV) (m b : ℕ) (C : ℚ) (f : Frame1) : (adaptiveThresholdMean cv m b C f).width = f.width := rfl

@[simp] theorem adaptiveThresholdMean_height (cv : CV) (m b : ℕ) (C : ℚ) (f : Frame1) : (adaptiveThresholdMean cv m b C f).height = f.height := rfl

@[simp] theorem adaptiveThresholdGauss_width (cv : CV) (m b : ℕ) (C : ℚ) (f : Frame1) : (adaptiveThresholdGauss cv m b C f).width = f.width := rfl

@[simp] theorem adaptiveThresholdGauss_height (cv : CV) (m b : ℕ) (C : ℚ) (f : Frame1) : (adaptiveThresholdGauss cv m b C f).height = f.height := rfl

@[simp] theorem canny_width (cv : CV) (t1 t2 : ℕ) (f : Frame1) : (canny cv t1 t2 f).width = f.width := rfl

@[simp] theorem canny_height (cv : CV) (t1 t2 : ℕ) (f : Frame1) : (canny cv t1 t2 f).height = f.height := rfl

@[simp] theorem dilate_width (cv : CV) (f : Frame1) : (dilate cv f).width = f.width := rfl

@[simp] theorem dilate_height (cv : CV) (f : Frame1) : (dilate cv f).height = f.height := rfl

@[simp] theorem morphClose_width (cv : CV) (f : Frame1) : (morphClose cv f).width = f.width := rfl

@[simp] theorem morphClose_height (cv : CV) (f : Frame1) : (morphClose cv f).height = f.height := rfl

@[simp] theorem filter2D_width (cv : CV) (k : ℕ → ℕ → ℤ) (f : Frame3) : (filter2D cv k f).width = f.width := rfl

@[simp] theorem filter2D_height (cv : CV) (k : ℕ → ℕ → ℤ) (f : Frame3) : (filter2D cv k f).height = f.height := rfl

@[simp] theorem gaussianBlur_width (cv : CV) (s : ℚ) (f : Frame3) : (gaussianBlur cv s f).width = f.width := rfl

@[simp] theorem gaussianBlur_height (cv : CV) (s : ℚ) (f : Frame3) : (gaussianBlur cv s f).height = f.height := rfl

@[simp] theorem gaussianBlurK_width (cv : CV) (k : ℕ) (f : Frame3) : (gaussianBlurK cv k f).width = f.width := rfl

@[simp] theorem gaussianBlurK_height (cv : CV) (k : ℕ) (f : Frame3) : (gaussianBlurK cv k f).height = f.height := rfl

@[simp] theorem boostSaturationBGR_width (cv : CV) (fac : ℚ) (f : Frame3) : (boostSaturationBGR cv fac f).width = f.width := rfl

@[simp] theorem boostSaturationBGR_height (cv : CV) (fac : ℚ) (f : Frame3) : (boostSaturationBGR cv fac f).height = f.height := rfl

@[simp] theorem boostSatValBGR_width (cv : CV) (fs fv : ℚ) (f : Frame3) : (boostSatValBGR cv fs fv f).width = f.width := rfl

@[simp] theorem boostSatValBGR_height (cv : CV) (fs fv : ℚ) (f : Frame3) : (boostSatValBGR cv fs fv f).height = f.height := rfl

@[simp] theorem boostSaturationRGB_width (cv : CV) (fac : ℚ) (f : Frame3) : (boostSaturationRGB cv fac f).width = f.width := rfl

@[simp] theorem boostSaturationRGB_height (cv : CV) (fac : ℚ) (f : Frame3) : (boostSaturationRGB cv fac f).height = f.height := rfl

@[simp] theorem boostSatValRGB_width (cv : CV) (fs fv : ℚ) (f : Frame3) : (boostSatValRGB cv fs fv f).width = f.width := rfl

@[simp] theorem boostSatValRGB_height (cv : CV) (fs fv : ℚ) (f : Frame3) : (boostSatValRGB cv fs fv f).height = f.height := rfl

@[simp] theorem boostLightnessLAB_width (cv : CV) (fac : ℚ) (f : Frame3) : (boostLightnessLAB cv fac f).width = f.width := rfl

@[simp] theorem boostLightnessLAB_height (cv : CV) (fac : ℚ) (f : Frame3) : (boostLightnessLAB cv fac f).height = f.height := rfl

@[simp] theorem claheLightness_width (cv : CV) (f : Frame3) : (claheLightness cv f).width = f.width := rfl

@[simp] theorem claheLightness_height (cv : CV) (f : Frame3) : (claheLightness cv f).height = f.height := rfl

@[simp] theorem quantize_colors_width (cv : CV) (f : Frame3) (k : ℕ) : (quantize_colors cv f k).width = f.width := rfl

@[simp] theorem quantize_colors_height (cv : CV) (f : Frame3) (k : ℕ) : (quantize_colors cv f k).height = f.height := rfl

@[simp] theorem stylize_oil_painting_width (cv : CV) (f : Frame3) : (stylize_oil_painting cv f).width = f.width := rfl

@[simp] theorem stylize_oil_painting_height (cv : CV) (f : Frame3) : (stylize_oil_painting cv f).height = f.height := rfl

@[simp] theorem pencilSketch_fst_width (cv : CV) (f : Frame3) : (pencilSketch cv f).1.width = f.width := rfl

@[simp] theorem pencilSketch_fst_height (cv : CV) (f : Frame3) : (pencilSketch cv f).1.height = f.height := rfl

@[simp] theorem pencilSketch_snd_width (cv : CV) (f : Frame3) : (pencilSketch cv f).2.width = f.width := rfl

@[simp] theorem pencilSketch_snd_height (cv : CV) (f : Frame3) : (pencilSketch cv f).2.height = f.height := rfl

theorem land_zero_eq (n : ℕ) : n &&& 0 = 0 := by
  simp

set_option maxRecDepth 10000 in
theorem land_255_of_lt : ∀ m, m < 256 → m &&& 255 = m := by
  decide

theorem scaleClip_le_255 (fac : ℚ) (v : ℕ) : scaleClip fac v ≤ 255 := by
  unfold scaleClip
  rw [Int.toNat_le]
  have h1 : ⌊max 0 (min (fac * (v : ℚ)) 255)⌋ ≤ ⌊(255 : ℚ)⌋ :=
    Int.floor_mono (max_le (by norm_num) (min_le_right _ _))
  have h2 : ⌊(255 : ℚ)⌋ = 255 := by norm_num
  exact_mod_cast h1.trans_eq h2

theorem scaleClip_zero (fac : ℚ) : scaleClip fac 0 = 0 := by
  unfold scaleClip
  norm_num

theorem scaleClip_of_cap (fac : ℚ) (v : ℕ) (h : (255 : ℚ) ≤ fac * v) :
    scaleClip fac v = 255 := by
  unfold scaleClip
  rw [min_eq_right h, max_eq_right (by norm_num : (0 : ℚ) ≤ 255)]
  rw [show ⌊(255 : ℚ)⌋ = 255 by norm_num]
  rfl

theorem size_check_iff (len cap : ℕ) :
    ((cap : ℚ) < (len : ℚ) / (1024 * 1024)) ↔ cap * 1048576 < len := by
  rw [lt_div_iff₀ (by norm_num : (0 : ℚ) < 1024 * 1024)]
  constructor
  · intro h
    exact_mod_cast (by push_cast at h ⊢; linarith : ((cap * 1048576 : ℕ) : ℚ) < (len : ℚ))
  · intro h
    have : ((cap * 1048576 : ℕ) : ℚ) < (len : ℚ) := by exact_mod_cast h
    push_cast at this ⊢
    linarith

/-! ### Claim theorems -/

/-- C2: for a colour frame and an edge mask with values in {0, 255}, the
compositing step `composeEdges` (the `bitwise_and` of the quantized colour
frame with the GRAY2BGR-replicated mask) maps a pixel with mask value 0 to
exactly black and a pixel with mask value 255 to the pixel of the colour frame
unchanged, the mask acting identically on all three channels. -/
theorem c2_compositing_mask_law (c : Frame3) (m : Frame1) (x y : ℕ)
    (hc0 : (c.pix x y).c0 < 256) (hc1 : (c.pix x y).c1 < 256)
    (hc2 : (c.pix x y).c2 < 256) (hm : m.pix x y = 0 ∨ m.pix x y = 255) :
    (composeEdges c m).pix x y =
      if m.pix x y = 0 then ⟨0, 0, 0⟩ else c.pix x y := by
  rcases hm with h | h
  · simp [composeEdges, bitwiseAnd3, gray2bgr, h, land_zero_eq]
  · simp only [composeEdges, bitwiseAnd3, gray2bgr, h,
      land_255_of_lt _ hc0, land_255_of_lt _ hc1, land_255_of_lt _ hc2]
    norm_num

theorem c2_compositing_mask_law_witness :
    ((probeColor.pix 0 0).c0 < 256 ∧ (probeColor.pix 0 0).c1 < 256 ∧
      (probeColor.pix 0 0).c2 < 256 ∧
      (probeMask.pix 0 0 = 0 ∨ probeMask.pix 0 0 = 255)) ∧
    (composeEdges probeColor probeMask).pix 0 0 =
      (if probeMask.pix 0 0 = 0 then ⟨0, 0, 0⟩ else probeColor.pix 0 0) :=
  ⟨⟨by decide, by decide, by decide, by decide⟩,
   c2_compositing_mask_law probeColor probeMask 0 0
     (by decide) (by decide) (by decide) (by decide)⟩

/-- C6 counterexample: the saturation enhancement is not idempotent.  On a
pixel with saturation 100 and factor 1.2 (the factor used by the classic style), one
application gives saturation 120 but a second application gives 144. -/
theorem c6_enhance_not_idempotent :
    (enhanceSaturation ((6 : ℚ)/5) (enhanceSaturation ((6 : ℚ)/5) probeHSV)).pix 0 0 ≠
      (enhanceSaturation ((6 : ℚ)/5) probeHSV).pix 0 0 := by
  have h1 : scaleClip ((6 : ℚ)/5) 100 = 120 := by
    unfold scaleClip
    rw [show max 0 (min ((6 : ℚ)/5 * ((100 : ℕ) : ℚ)) 255) = 120 by norm_num]
    rw [show ⌊(120 : ℚ)⌋ = 120 by norm_num]
    rfl
  have h2 : scaleClip ((6 : ℚ)/5) 120 = 144 := by
    unfold scaleClip
    rw [show max 0 (min ((6 : ℚ)/5 * ((120 : ℕ) : ℚ)) 255) = 144 by norm_num]
    rw [show ⌊(144 : ℚ)⌋ = 144 by norm_num]
    rfl
  simp [enhanceSaturation, mapPixels, probeHSV, h1, h2]

/-- C6 amended: the channel enhancement `scaleClip` hard-clamps to the
legal range [0, 255] and is idempotent at the range extremes — channel
value 0, and channel values the factor drives to the 255 cap — but not in
general (see the counterexample).  The factor is `num/den ≥ 1`. -/
theorem c6_amended_clamp_and_extremes (num den v : ℕ) (hden : 0 < den)
    (hfac : den ≤ num) :
    scaleClip ((num : ℚ)/den) v ≤ 255 ∧
    scaleClip ((num : ℚ)/den) 0 = 0 ∧
    (∀ (f : Frame3) (x y : ℕ),
      ((enhanceSaturation ((num : ℚ)/den) f).pix x y).c1 ≤ 255) ∧
    (255 * den ≤ num * v →
      scaleClip ((num : ℚ)/den) (scaleClip ((num : ℚ)/den) v) =
        scaleClip ((num : ℚ)/den) v) := by
  have hden' : (0 : ℚ) < den := by exact_mod_cast hden
  have hfac' : (1 : ℚ) ≤ (num : ℚ)/den := by
    rw [le_div_iff₀ hden']
    exact_mod_cast by simpa using hfac
  refine ⟨scaleClip_le_255 _ _, scaleClip_zero _, ?_, ?_⟩
  · intro f x y
    simpa [enhanceSaturation, mapPixels] using
      scaleClip_le_255 ((num : ℚ)/den) (f.pix x y).c1
  · intro hcap
    have hcap' : (255 : ℚ) ≤ (num : ℚ)/den * v := by
      rw [div_mul_eq_mul_div, le_div_iff₀ hden']
      exact_mod_cast by simpa [mul_comm] using hcap
    rw [scaleClip_of_cap _ _ hcap']
    apply scaleClip_of_cap
    calc (255 : ℚ) = 1 * 255 := by norm_num
      _ ≤ (num : ℚ)/den * 255 := by
          apply mul_le_mul_of_nonneg_right hfac' (by norm_num)
      _ = (num : ℚ)/den * ((255 : ℕ) : ℚ) := by norm_num

theorem c6_amended_clamp_and_extremes_witness :
    (0 < 5 ∧ 5 ≤ 6) ∧
    (scaleClip ((6 : ℚ)/5) 250 ≤ 255 ∧
     scaleClip ((6 : ℚ)/5) 0 = 0 ∧
     (∀ (f : Frame3) (x y : ℕ),
       ((enhanceSaturation ((6 : ℚ)/5) f).pix x y).c1 ≤ 255) ∧
     (255 * 5 ≤ 6 * 250 →
       scaleClip ((6 : ℚ)/5) (scaleClip ((6 : ℚ)/5) 250) =
         scaleClip ((6 : ℚ)/5) 250)) :=
  ⟨⟨by decide, by decide⟩, c6_amended_clamp_and_extremes 6 5 250 (by decide) (by decide)⟩

/-- C9: for the same input frame, the pencil-sketch operation returns a
single-channel frame in grayscale mode and a three-channel frame in colour
mode. -/
theorem c9_pencil_sketch_channels (cv : CV) (image : Frame3) :
    (stylize_pencil_sketch cv image false).channels = 1 ∧
    (stylize_pencil_sketch cv image true).channels = 3 :=
  ⟨rfl, rfl⟩

/-- C10: the validator rejects any image with width or height below 50 and
any byte blob strictly over the cap (`max_size_mb` megabytes, default 10),
and accepts an image of exactly 50×50 together with a blob of exactly the
cap size. -/
theorem c10_validator_boundaries (len w h cap : ℕ) :
    (w < 50 ∨ h < 50 → (validate_image len (some (w, h)) cap).1 = false) ∧
    (cap * 1048576 < len → ∀ dec, (validate_image len dec cap).1 = false) ∧
    (len ≤ cap * 1048576 → 50 ≤ w → w ≤ 10000 → 50 ≤ h → h ≤ 10000 →
      validate_image len (some (w, h)) cap = (true, "")) := by
  refine ⟨?_, ?_, ?_⟩
  · intro hwh
    unfold validate_image
    split
    · rfl
    · simp [hwh]
  · intro hlen dec
    unfold validate_image
    rw [if_pos ((size_check_iff len cap).mpr hlen)]
  · intro h1 h2 h3 h4 h5
    unfold validate_image
    rw [if_neg (by rw [size_check_iff]; omega)]
    simp only
    rw [if_neg (by omega), if_neg (by omega)]

theorem c10_validator_boundaries_witness :
    ((49 < 50 ∨ (60 : ℕ) < 50) ∧ (validate_image 500 (some (49, 60)) 10).1 = false) ∧
    (10 * 1048576 < 10485761 ∧ (validate_image 10485761 (some (100, 100)) 10).1 = false) ∧
    (10485760 ≤ 10 * 1048576 ∧ validate_image 10485760 (some (50, 50)) 10 = (true, "")) :=
  ⟨⟨by decide, (c10_validator_boundaries 500 49 60 10).1 (by decide)⟩,
   ⟨by decide, (c10_validator_boundaries 10485761 100 100 10).2.1 (by decide) _⟩,
   ⟨by decide, (c10_validator_boundaries 10485760 50 50 10).2.2 (by decide)
      (by decide) (by decide) (by decide) (by decide)⟩⟩

/-- C1 counterexample: `CartoonConverter.convert` called with an
unregistered style name does return a result — it silently falls back to
the classic pipeline instead of failing (the final `else` of
`cartoon_converter.py` lines 44-45). -/
theorem c1_returns_fallback_result :
    CartoonConverter.convert trivCV probeColor "unknown-style" =
      some (classic_cartoon trivCV probeColor) :=
  rfl

/-- C1 amended: for an unregistered style identifier the HTTP-level
dispatch (`app.convert_image`) fails with the unknown-style error before
invoking any pipeline stage, but `CartoonConverter.convert` itself falls
back to the classic pipeline and returns its result. -/
theorem c1_amended_unknown_style (cv : CV) (image : Frame3) (style : String)
    (h : style ∉ ["classic", "smooth", "edge_heavy", "ultra", "pencil_sketch",
      "pencil_sketch_color", "oil_painting", "cartoon", "anime", "watercolor"]) :
    convert_image_style cv style image = .error ("Unknown style: " ++ style) ∧
    CartoonConverter.convert cv image style = some (classic_cartoon cv image) := by
  obtain ⟨h1, h2, h3, h4, h5, h6, h7, h8, h9, h10⟩ :
      style ≠ "classic" ∧ style ≠ "smooth" ∧ style ≠ "edge_heavy" ∧
      style ≠ "ultra" ∧ style ≠ "pencil_sketch" ∧ style ≠ "pencil_sketch_color" ∧
      style ≠ "oil_painting" ∧ style ≠ "cartoon" ∧ style ≠ "anime" ∧
      style ≠ "watercolor" := by
    simpa [not_or] using h
  constructor
  · simp [convert_image_style, h1, h2, h3, h4, h5, h6, h7, h8, h9, h10]
  · simp [CartoonConverter.convert, h1, h2, h3, h4]

theorem c1_amended_unknown_style_witness :
    ("unknown-style" ∉ ["classic", "smooth", "edge_heavy", "ultra", "pencil_sketch",
      "pencil_sketch_color", "oil_painting", "cartoon", "anime", "watercolor"]) ∧
    (convert_image_style trivCV "unknown-style" probeColor =
        .error ("Unknown style: " ++ "unknown-style") ∧
      CartoonConverter.convert trivCV probeColor "unknown-style" =
        some (classic_cartoon trivCV probeColor)) :=
  ⟨by decide, c1_amended_unknown_style trivCV probeColor "unknown-style" (by decide)⟩

/-- C3: a batch of more than 10 items fails the entire call — the cap check
runs before any item is touched — while a batch of at most 10 items is
accepted and every item is processed independently (the result is the
itemwise map of the per-item processor, so the failure of one item cannot
affect the entry of another). -/
theorem c3_batch_cap_and_isolation (cv : CV) (style : String) (files : List Upload) :
    (10 < files.length →
      batch_convert_images cv style files =
        .error "Maximum 10 files allowed in batch processing") ∧
    (files.length ≤ 10 →
      batch_convert_images cv style files =
        .ok ⟨files.length,
             ((files.map (processBatchItem cv style)).filter (fun r => r.isSuccess)).length,
             ((files.map (processBatchItem cv style)).filter (fun r => ¬ r.isSuccess)).length,
             files.map (processBatchItem cv style)⟩) := by
  constructor
  · intro hlen
    unfold batch_convert_images
    rw [if_pos hlen]
  · intro hlen
    unfold batch_convert_images
    rw [if_neg (by omega)]

theorem c3_batch_cap_and_isolation_witness :
    (10 < elevenUploads.length ∧
      batch_convert_images trivCV "classic" elevenUploads =
        .error "Maximum 10 files allowed in batch processing") ∧
    (threeUploads.length ≤ 10 ∧
      batch_convert_images trivCV "classic" threeUploads =
        .ok ⟨threeUploads.length,
             ((threeUploads.map (processBatchItem trivCV "classic")).filter
               (fun r => r.isSuccess)).length,
             ((threeUploads.map (processBatchItem trivCV "classic")).filter
               (fun r => ¬ r.isSuccess)).length,
             threeUploads.map (processBatchItem trivCV "classic")⟩) :=
  ⟨⟨by decide, (c3_batch_cap_and_isolation trivCV "classic" elevenUploads).1 (by decide)⟩,
   ⟨by decide, (c3_batch_cap_and_isolation trivCV "classic" threeUploads).2 (by decide)⟩⟩

/-- C7 counterexample: single-item conversion and batch conversion do not
dispatch identically per style name.  For the registered style "ultra"
the single-item endpoint runs the ultra pipeline, but the batch endpoint
routes to the GAN-style fallback of the AI converter. -/
theorem c7_dispatch_differs_on_ultra :
    singleDispatch "ultra" = Except.ok Pipeline.ultra ∧
    batchDispatch "ultra" = Pipeline.ganStyle ∧
    Pipeline.ultra ≠ Pipeline.ganStyle :=
  ⟨rfl, rfl, by decide⟩

/-- C7 amended: batch and single-item conversion dispatch identically for
the styles "classic", "smooth", "edge_heavy", "cartoon", "anime" and
"watercolor"; for "ultra", "pencil_sketch", "pencil_sketch_color" and
"oil_painting" (and unregistered names) the batch endpoint instead routes
to the AI converter. -/
theorem c7_amended_dispatch_agreement (style : String)
    (h : style ∈ ["classic", "smooth", "edge_heavy", "cartoon", "anime", "watercolor"]) :
    singleDispatch style = Except.ok (batchDispatch style) := by
  fin_cases h <;> rfl

theorem c7_amended_dispatch_agreement_witness :
    "classic" ∈ ["classic", "smooth", "edge_heavy", "cartoon", "anime", "watercolor"] ∧
    singleDispatch "classic" = Except.ok (batchDispatch "classic") :=
  ⟨by decide, c7_amended_dispatch_agreement "classic" (by decide)⟩

/-- C8: quantization with cluster count `k` on a frame showing `m ≤ k`
distinct colours produces at most `m` distinct output colours, and is a
total function (degenerate clusterings yield duplicate assignments, never
an error): the output colour of a pixel is a function of its input colour
only, so the output palette is an image of the input palette. -/
theorem c8_quantize_distinct_color_bound (cv : CV) (image : Frame3) (k : ℕ)
    (hk : (colorsOf image).card ≤ k) :
    (colorsOf (quantize_colors cv image k)).card ≤ (colorsOf image).card := by
  have h : colorsOf (quantize_colors cv image k) =
      (colorsOf image).image
        (nearestCenter (cv.kmeansCenters k (framePixels image))) := by
    unfold colorsOf quantize_colors
    rw [Finset.image_image]
    rfl
  rw [h]
  exact Finset.card_image_le

theorem c8_quantize_distinct_color_bound_witness :
    (colorsOf (constFrame 1 1 ⟨5, 6, 7⟩)).card ≤ 1 ∧
    (colorsOf (quantize_colors trivCV (constFrame 1 1 ⟨5, 6, 7⟩) 1)).card ≤
      (colorsOf (constFrame 1 1 ⟨5, 6, 7⟩)).card :=
  ⟨by decide, c8_quantize_distinct_color_bound trivCV (constFrame 1 1 ⟨5, 6, 7⟩) 1 (by decide)⟩

theorem ultra_dims (cv : CV) (image f : Frame3)
    (h : ultra_quality_cartoon cv image = some f) :
    f.width = image.width ∧ f.height = image.height := by
  unfold ultra_quality_cartoon at h
  simp only [] at h
  split at h
  · exact absurd h (by simp)
  · injection h with h
    subst h
    constructor <;> simp [composeEdges]

theorem neural_transfer_dims (cv : CV) (image : Frame3) (style : String) :
    (apply_neural_style_transfer cv image style).width = image.width ∧
    (apply_neural_style_transfer cv image style).height = image.height := by
  unfold apply_neural_style_transfer
  split
  · constructor <;> simp [convert_anime_style]
  · split
    · constructor <;> simp [convert_watercolor_style]
    · constructor <;> simp [convert_simple_gan_style]

theorem converter_convert_dims (cv : CV) (image : Frame3) (style : String)
    (f : Frame3) (h : CartoonConverter.convert cv image style = some f) :
    f.width = image.width ∧ f.height = image.height := by
  unfold CartoonConverter.convert at h
  split at h
  · injection h with h; subst h; constructor <;> simp [classic_cartoon]
  · split at h
    · injection h with h; subst h; constructor <;> simp [smooth_cartoon]
    · split at h
      · injection h with h; subst h; constructor <;> simp [edge_heavy_cartoon]
      · split at h
        · exact ultra_dims cv image f h
        · injection h with h; subst h; constructor <;> simp [classic_cartoon]

/-- C4: whatever registered style the dispatch resolves, when the
conversion produces an output frame it has the same width and height as
the input frame (the model starts after the optional external resize, so
the proviso of the claim is built in). -/
theorem c4_convert_preserves_dims (cv : CV) (style : String) (image : Frame3)
    (out : OutFrame) (h : convert_image_style cv style image = .ok (some out)) :
    out.width = image.width ∧ out.height = image.height := by
  unfold convert_image_style at h
  split at h
  · injection h with h
    rw [Option.map_eq_some'] at h
    obtain ⟨f, hf, rfl⟩ := h
    exact converter_convert_dims cv image style f hf
  · split at h
    · injection h with h
      injection h with h
      subst h
      constructor <;> simp [stylize_pencil_sketch, OutFrame.width, OutFrame.height]
    · split at h
      · injection h with h
        injection h with h
        subst h
        constructor <;> simp [stylize_pencil_sketch, OutFrame.width, OutFrame.height]
      · split at h
        · injection h with h
          injection h with h
          subst h
          constructor <;> simp [OutFrame.width, OutFrame.height]
        · split at h
          · injection h with h
            injection h with h
            subst h
            simpa [OutFrame.width, OutFrame.height] using
              neural_transfer_dims cv image style
          · exact absurd h (by simp)

theorem c4_convert_preserves_dims_witness :
    convert_image_style trivCV "classic" probeColor =
        .ok (some (OutFrame.color (classic_cartoon trivCV probeColor))) ∧
    ((OutFrame.color (classic_cartoon trivCV probeColor)).width = probeColor.width ∧
     (OutFrame.color (classic_cartoon trivCV probeColor)).height = probeColor.height) :=
  ⟨rfl, c4_convert_preserves_dims trivCV "classic" probeColor _ rfl⟩

theorem foldr_max_zero {α : Type} (l : List α) (g : α → ℕ)
    (hg : ∀ a ∈ l, g a = 0) : (l.map g).foldr max 0 = 0 := by
  induction l with
  | nil => rfl
  | cons a l ih =>
    simp only [List.map_cons, List.foldr_cons]
    rw [hg a (by simp), ih (fun b hb => hg b (by simp [hb]))]
    simp

theorem gridMax_eq_zero (w h : ℕ) (f : ℕ → ℕ → ℕ)
    (hf : ∀ x y, f x y = 0) : gridMax w h f = 0 := by
  unfold gridMax
  apply foldr_max_zero
  intro x _
  exact foldr_max_zero _ _ (fun y _ => hf x y)

theorem sobelXAt_const (g : Frame1) (k : ℕ) (hg : ∀ a b, g.pix a b = k)
    (x y : ℕ) : sobelXAt g x y = 0 := by
  simp only [sobelXAt, sampleR, hg]
  ring

theorem sobelYAt_const (g : Frame1) (k : ℕ) (hg : ∀ a b, g.pix a b = k)
    (x y : ℕ) : sobelYAt g x y = 0 := by
  simp only [sobelYAt, sampleR, hg]
  ring

theorem sobelEdgeStage_flat (cv : CV) (g : Frame1) (k : ℕ)
    (hg : ∀ a b, g.pix a b = k) : sobelEdgeStage cv g = none := by
  unfold sobelEdgeStage
  rw [if_pos]
  apply gridMax_eq_zero
  intro x y
  simp [sobelMag2, sobelXAt_const g k hg, sobelYAt_const g k hg]

/-- C5 refuting theorem (code bug): on a 100×100 solid-colour frame the
grayscale gradient is zero everywhere, so `np.max(sobel)` is 0 and the
edge normalisation of the ultra style `255 * sobel / np.max(sobel)` is a 0/0
division — the ultra pipeline is undefined on exactly the minimal
synthetic frame the spec requires every registered style to handle. -/
theorem c5_ultra_edge_division_by_zero (cv : CV) (c : Pix3) :
    ultra_quality_cartoon cv (constFrame 100 100 c) = none := by
  have h := sobelEdgeStage_flat cv (cvtGray (constFrame 100 100 c))
    (bgr2grayPix c) (fun _ _ => rfl)
  simp [ultra_quality_cartoon, h]

end ImageToToonArt
